import Mathlib

set_option maxRecDepth 40000

/-!
Shallow embedding of the `waterloss_vgiperdas` frontend
(`frontend/config.js` and `frontend/js/main.js`).

Modelling conventions:
* JS numbers are rationals (`ℚ`); every score the claims exercise is exact
  at the thresholds 2 and 5, so no floating-point subtlety is involved.
* A possibly-absent JS value is an `Option`; JS `x || d` on strings maps the
  empty string (falsy) to the default, and on numbers maps 0 to the default.
* JS relational comparison against `undefined` is `false` (NaN semantics),
  embedded by `jsGE`.
* `new Date(s).toLocaleString()` is environment dependent: the date parser
  and the locale formatter are explicit parameters (`parse`, `fmt`).  An
  absent or unparseable input yields an invalid date, whose rendering is
  the literal string "Invalid Date".
* The fetch / render pipeline is a state transformer on `MapState`; the
  possible outcomes of the single `fetch` are enumerated by `FetchOutcome`.
-/

/-! ### Substring machinery (used to state "the popup contains ...") -/

/-- Boolean test that `pat` is an initial segment of the second list. -/
def matchHead : List Char → List Char → Bool
  | [], _ => true
  | _ :: _, [] => false
  | a :: as, b :: bs => decide (a = b) && matchHead as bs

/-- Boolean test that `pat` occurs contiguously inside the second list. -/
def hasSubstr (pat : List Char) : List Char → Bool
  | [] => matchHead pat []
  | b :: bs => matchHead pat (b :: bs) || hasSubstr pat bs

/-- Boolean test that the string `pat` occurs contiguously inside `s`. -/
def strContains (pat s : String) : Bool :=
  hasSubstr pat.data s.data

theorem matchHead_append (l r : List Char) : matchHead l (l ++ r) = true := by
  induction l with
  | nil => rfl
  | cons a as ih => simp [matchHead, ih]

theorem matchHead_mono (pat : List Char) :
    ∀ (s b : List Char), matchHead pat s = true → matchHead pat (s ++ b) = true := by
  induction pat with
  | nil => intro s b _; rfl
  | cons a as ih =>
    intro s b h
    cases s with
    | nil => simp [matchHead] at h
    | cons c cs =>
      simp [matchHead] at h ⊢
      exact ⟨h.1, ih cs b h.2⟩

theorem hasSubstr_of_matchHead {pat s : List Char} (h : matchHead pat s = true) :
    hasSubstr pat s = true := by
  cases s with
  | nil => simpa [hasSubstr] using h
  | cons b bs => simp [hasSubstr, h]

theorem hasSubstr_append_left (a : List Char) {pat s : List Char}
    (h : hasSubstr pat s = true) : hasSubstr pat (a ++ s) = true := by
  induction a with
  | nil => simpa using h
  | cons c cs ih => simp [hasSubstr, ih]

theorem hasSubstr_nil : ∀ (s : List Char), hasSubstr [] s = true := by
  intro s; cases s <;> simp [hasSubstr, matchHead]

theorem hasSubstr_append_right {pat : List Char} (b : List Char) :
    ∀ {s : List Char}, hasSubstr pat s = true → hasSubstr pat (s ++ b) = true := by
  intro s
  induction s with
  | nil =>
    intro h
    cases pat with
    | nil => exact hasSubstr_nil b
    | cons a as => simp [hasSubstr, matchHead] at h
  | cons c cs ih =>
    intro h
    simp [hasSubstr] at h
    rcases h with h | h
    · exact hasSubstr_of_matchHead (matchHead_mono pat (c :: cs) b h)
    · simp [hasSubstr, ih h]

theorem hasSubstr_sandwich (pat a b : List Char) :
    hasSubstr pat (a ++ (pat ++ b)) = true :=
  hasSubstr_append_left a (hasSubstr_of_matchHead (matchHead_append pat b))

theorem strContains_append_self (pat a : String) :
    strContains pat (a ++ pat) = true := by
  show hasSubstr pat.data (a ++ pat).data = true
  rw [String.data_append]
  have h := hasSubstr_sandwich pat.data a.data []
  simpa using h

/-! ### Configuration (`frontend/config.js`) -/

/-- Shape of the static configuration record `config` in `config.js`. -/
structure Config where
  osmTileUrl : String
  osmAttribution : String
  wfsServiceUrl : String
  centerLat : ℚ
  centerLon : ℚ
  defaultZoom : ℚ
deriving DecidableEq

/-- The configuration constant defined in `frontend/config.js`. -/
def config : Config :=
  { osmTileUrl := "https://{s}.tile.openstreetmap.org/{z}/{x}/{y}.png"
    osmAttribution :=
      "&copy; <a href=\"https://www.openstreetmap.org/copyright\">OpenStreetMap</a> contributors"
    wfsServiceUrl :=
      "http://localhost:8080/qgis/qgis_server.fcgi?MAP=/path/to/your/qgis_project.qgz&SERVICE=WFS&VERSION=1.0.0&REQUEST=GetFeature&TYPENAME=vazamentos_denuncias&OUTPUTFORMAT=application/json"
    centerLat := -23.5505
    centerLon := -46.6333
    defaultZoom := 12 }

/-! ### Data model (GeoJSON features as consumed by `main.js`) -/

/-- Property mapping of a feature; every field may be absent. -/
structure Props where
  tipo_vazamento : Option String := none
  descricao_detalhes : Option String := none
  intensidade_vazamento : Option String := none
  origem_vazamento : Option String := none
  prioridade_score : Option ℚ := none
  status : Option String := none
  data_submissao : Option String := none
  foto_url : Option String := none
deriving DecidableEq

/-- A point feature: coordinates plus an optional properties object
(`feature.properties` may be absent or null in GeoJSON). -/
structure Feature where
  latlng : ℚ × ℚ
  properties : Option Props
deriving DecidableEq

/-- A feature collection is the list of its features. -/
def FeatureCollection := List Feature

/-- Render attributes returned by `stylePoints`. -/
structure Style where
  radius : ℚ
  fillColor : String
  color : String
  weight : ℚ
  opacity : ℚ
  fillOpacity : ℚ
deriving DecidableEq

/-- A thrown JS error, identified by its message. -/
structure JSError where
  message : String
deriving DecidableEq

/-- A circle marker as produced by `pointToLayer` + `onEachFeature`:
its position, its style, and the popup content bound to it (if any). -/
structure Marker where
  latlng : ℚ × ℚ
  style : Style
  popup : Option String
deriving DecidableEq

/-! ### JS value helpers -/

/-- JS `a || d` for an optional string: absent and the empty string are falsy. -/
def jsOrStr (v : Option String) (d : String) : String :=
  match v with
  | none => d
  | some s => if s = "" then d else s

/-- JS `a || d` for an optional number: absent and 0 are falsy.
(NaN, the other falsy number, has no counterpart in the rational model.) -/
def jsOrNum (v : Option ℚ) (d : ℚ) : ℚ :=
  match v with
  | none => d
  | some q => if q = 0 then d else q

/-- JS truthiness of an optional string (`if (props.foto_url)`). -/
def jsTruthyStr : Option String → Bool
  | none => false
  | some s => decide (s ≠ "")

/-- JS `a >= c` where `a` may be `undefined`: a comparison against
`undefined` is `false` (it goes through NaN). -/
def jsGE : Option ℚ → ℚ → Bool
  | none, _ => false
  | some q, c => decide (c ≤ q)

/-- Rendering of a JS number inside a template literal.  Integers render as
their decimal numeral, exactly as in JS; non-integers are rendered from the
reduced fraction (no claim exercises a non-integer score display). -/
def jsNumToString (q : ℚ) : String :=
  if q.den = 1 then toString q.num else toString q.num ++ "/" ++ toString q.den

/-- Embedding of `new Date(v).toLocaleString()`.  `parse` is the
environment's (implementation-defined) date parser and `fmt` its locale
formatter.  `new Date(undefined)` and an unparseable string both give an
invalid date, which formats as the literal "Invalid Date". -/
def jsNewDateToLocaleString (parse : String → Option Int) (fmt : Int → String) :
    Option String → String
  | none => "Invalid Date"
  | some s =>
    match parse s with
    | none => "Invalid Date"
    | some t => fmt t

/-! ### The three display functions of `main.js` -/

/-- Step 3 of `main.js`: `getPriorityColor(score)`.  The argument may be
`undefined` (`none`); the source compares with `>=` twice and falls through
to green. -/
def getPriorityColor (score : Option ℚ) : String :=
  if jsGE score 5 then "red"
  else if jsGE score 2 then "orange"
  else "green"

/-- Step 4 of `main.js`: `stylePoints(feature)`.  The source dereferences
`feature.properties` without a guard: on a feature without a properties
object the JS engine throws a `TypeError`, embedded as `Except.error`. -/
def stylePoints (feature : Feature) : Except JSError Style :=
  match feature.properties with
  | none => Except.error ⟨"TypeError: Cannot read properties of undefined"⟩
  | some props =>
    Except.ok
      { radius := 8
        fillColor := getPriorityColor (some (jsOrNum props.prioridade_score 0))
        color := "#000"
        weight := 1
        opacity := 1
        fillOpacity := 0.8 }

/-- The template literal `popupContent` of `onEachFeature`, character for
character (chunked at `${...}` holes; association of `++` is immaterial). -/
def popupBase (parse : String → Option Int) (fmt : Int → String) (props : Props) : String :=
  "\n            <b>Tipo:</b> " ++
    (jsOrStr props.tipo_vazamento "N/A" ++
      ("<br>\n            <b>Descrição:</b> " ++
        (jsOrStr props.descricao_detalhes "N/A" ++
          ("<br>\n            <b>Intensidade:</b> " ++
            (jsOrStr props.intensidade_vazamento "N/A" ++
              ("<br>\n            <b>Origem:</b> " ++
                (jsOrStr props.origem_vazamento "N/A" ++
                  ("<br>\n            <b>Prioridade:</b> " ++
                    (jsNumToString (jsOrNum props.prioridade_score 0) ++
                      ("<br>\n            <b>Status:</b> " ++
                        (jsOrStr props.status "N/A" ++
                          ("<br>\n            " ++
                            ("<b>Reportado em:</b> " ++
                              (jsNewDateToLocaleString parse fmt props.data_submissao ++
                                "<br>\n        "))))))))))))))

/-- The `<img ...>` fragment appended when `props.foto_url` is truthy. -/
def imgTag (u : String) : String :=
  "<img" ++
    (" src=\"" ++
      (u ++ "\" alt=\"Foto do Vazamento\" style=\"max-width:200px; height:auto; margin-top: 10px;\">"))

/-- Popup content for a properties object: the template literal, plus the
image fragment when `props.foto_url` is truthy (`if (props.foto_url)`). -/
def buildPopup (parse : String → Option Int) (fmt : Int → String) (props : Props) : String :=
  match props.foto_url with
  | none => popupBase parse fmt props
  | some u => if u = "" then popupBase parse fmt props
              else popupBase parse fmt props ++ imgTag u

/-- Step 5 of `main.js`: `onEachFeature(feature, layer)`.  The guard
`if (feature.properties)` means a feature without a properties object gets
no popup bound; the result is the popup content bound to the layer, if any. -/
def onEachFeature (parse : String → Option Int) (fmt : Int → String) (feature : Feature) :
    Option String :=
  match feature.properties with
  | none => none
  | some props => some (buildPopup parse fmt props)

/-! ### The fetch / render pipeline (step 6 of `main.js`) -/

/-- Result of `response.json()`: either a parsed feature collection or a
rejection on a malformed body. -/
inductive BodyParse where
  | ok (data : List Feature)
  | malformed
deriving DecidableEq

/-- The possible outcomes of the single `fetch(config.wfsServiceUrl)`:
a network-level rejection, or a response with its `ok` flag, numeric
status, and body parse result. -/
inductive FetchOutcome where
  | networkFailure
  | responded (okFlag : Bool) (status : Nat) (body : BodyParse)
deriving DecidableEq

/-- Observable state of the page: the configuration in scope, the map view,
the attached tile layers, the attached GeoJSON marker layers (one entry per
`addTo(map)` call), the `alert`s shown, and the console output. -/
structure MapState where
  cfg : Config
  view : Option (ℚ × ℚ × ℚ)
  tileLayers : List (String × String)
  markerLayers : List (List Marker)
  alerts : List String
  consoleErrors : List String
  consoleLogs : Nat
deriving DecidableEq

/-- The error thrown by the first `.then`: `new Error("Erro HTTP! Status: " + status)`. -/
def httpError (status : Nat) : JSError :=
  ⟨"Erro HTTP! Status: " ++ toString status⟩

/-- The alert text of the `.catch` handler. -/
def alertText : String :=
  "Não foi possível carregar os dados de vazamentos. Verifique a URL do WFS e o servidor."

/-- The `.catch` handler: `console.error("Erro ao carregar dados WFS:", error)`
followed by exactly one `alert(...)`.  No marker layer is touched. -/
def handleCatch (st : MapState) (e : JSError) : MapState :=
  { st with
    consoleErrors := st.consoleErrors ++ ["Erro ao carregar dados WFS: " ++ e.message]
    alerts := st.alerts ++ [alertText] }

/-- The marker construction of `L.geoJSON(data, ...)`: for each feature,
`pointToLayer` builds a circle marker styled by `stylePoints` (which may
throw) and `onEachFeature` binds the popup.  A throw anywhere aborts the
whole layer: no marker reaches the map. -/
def renderMarkers (parse : String → Option Int) (fmt : Int → String)
    (data : List Feature) : Except JSError (List Marker) :=
  data.mapM fun f => do
    let sty ← stylePoints f
    pure { latlng := f.latlng, style := sty, popup := onEachFeature parse fmt f }

/-- The fetch continuation chain of step 6: the first `.then` throws on a
non-ok response and parses the body; the second `.then` builds the GeoJSON
layer and adds it to the map in one step; `.catch` handles every failure. -/
def runFetchChain (parse : String → Option Int) (fmt : Int → String)
    (st : MapState) (outcome : FetchOutcome) : MapState :=
  match outcome with
  | .networkFailure => handleCatch st ⟨"TypeError: Failed to fetch"⟩
  | .responded okFlag status body =>
    match okFlag with
    | false => handleCatch st (httpError status)
    | true =>
      match body with
      | .malformed => handleCatch st ⟨"SyntaxError: Unexpected token in JSON"⟩
      | .ok data =>
        match renderMarkers parse fmt data with
        | .error e => handleCatch st e
        | .ok ms =>
          { st with
            markerLayers := st.markerLayers ++ [ms]
            consoleLogs := st.consoleLogs + 1 }

/-- Step 1 of `main.js`: `L.map('map').setView([config.centerLat, config.centerLon], config.defaultZoom)`. -/
def initMap (st : MapState) : MapState :=
  { st with view := some (st.cfg.centerLat, st.cfg.centerLon, st.cfg.defaultZoom) }

/-- Step 2 of `main.js`: `L.tileLayer(config.osmTileUrl, { attribution: config.osmAttribution, ... }).addTo(map)`. -/
def addTileLayer (st : MapState) : MapState :=
  { st with tileLayers := st.tileLayers ++ [(st.cfg.osmTileUrl, st.cfg.osmAttribution)] }

/-- State at script start: the configuration object is in scope, nothing
has been rendered. -/
def initState : MapState :=
  { cfg := config
    view := none
    tileLayers := []
    markerLayers := []
    alerts := []
    consoleErrors := []
    consoleLogs := 0 }

/-- The whole script: map bootstrap, tile layer, then the fetch chain
resolving to the given outcome. -/
def runMain (parse : String → Option Int) (fmt : Int → String)
    (outcome : FetchOutcome) : MapState :=
  runFetchChain parse fmt (addTileLayer (initMap initState)) outcome

/-! ### Test fixtures (concrete inputs for witnesses) -/

/-- A properties object with every field absent. -/
def emptyProps : Props := {}

/-- A trivial date parser that accepts nothing (concrete instance of the
environment parameter). -/
def parse0 : String → Option Int := fun _ => none

/-- A trivial locale formatter (concrete instance of the environment
parameter). -/
def fmt0 : Int → String := fun _ => ""

/-- A feature with a properties object but no fields set. -/
def featEmpty : Feature := { latlng := (0, 0), properties := some emptyProps }

/-- A feature without a properties object. -/
def featBare : Feature := { latlng := (0, 0), properties := none }

/-- A properties object whose photo URL is present but empty. -/
def propsEmptyFoto : Props := { foto_url := some "" }

/-- A properties object with a non-empty photo URL. -/
def propsWithFoto : Props := { foto_url := some "http://example.com/p.jpg" }

/-- A properties object with an unparseable submission timestamp. -/
def propsBadDate : Props := { data_submissao := some "not-a-date" }

/-! ### Claim theorems -/

/-- C1: for every numeric score `s`, `getPriorityColor` returns "red" iff
`s ≥ 5`, "orange" iff `2 ≤ s < 5`, and "green" iff `s < 2`; and classifying
a missing score (`undefined`) gives the same result as classifying 0,
namely "green". -/
theorem C1_priority_classifier :
    (∀ s : ℚ,
      (getPriorityColor (some s) = "red" ↔ 5 ≤ s) ∧
      (getPriorityColor (some s) = "orange" ↔ 2 ≤ s ∧ s < 5) ∧
      (getPriorityColor (some s) = "green" ↔ s < 2)) ∧
    getPriorityColor none = getPriorityColor (some 0) ∧
    getPriorityColor none = "green" := by
  refine ⟨fun s => ?_, by decide, by decide⟩
  by_cases h5 : (5 : ℚ) ≤ s
  · have h2 : (2 : ℚ) ≤ s := le_trans (by norm_num) h5
    simp [getPriorityColor, jsGE, h5, h2, not_lt.mpr h2, not_lt.mpr h5]
  · by_cases h2 : (2 : ℚ) ≤ s
    · simp [getPriorityColor, jsGE, h5, h2, not_lt.mpr h2, lt_of_not_le h5]
    · simp [getPriorityColor, jsGE, h5, h2, lt_of_not_le h2]

/-- Witness for C1 at concrete scores 6, 3 and 1. -/
theorem C1_priority_classifier_witness :
    getPriorityColor (some 6) = "red" ∧
    getPriorityColor (some 3) = "orange" ∧
    getPriorityColor (some 1) = "green" :=
  ⟨(C1_priority_classifier.1 6).1.mpr (by norm_num),
   (C1_priority_classifier.1 3).2.1.mpr (by norm_num),
   (C1_priority_classifier.1 1).2.2.mpr (by norm_num)⟩

/-- C7: the priority classifier is total (always returns one of exactly the
three tags, also on `undefined`) and deterministic (equal inputs give equal
outputs). -/
theorem C7_classifier_total_deterministic :
    (∀ s : Option ℚ,
      getPriorityColor s = "red" ∨ getPriorityColor s = "orange" ∨
      getPriorityColor s = "green") ∧
    (∀ s t : Option ℚ, s = t → getPriorityColor s = getPriorityColor t) := by
  constructor
  · intro s
    unfold getPriorityColor
    by_cases h5 : jsGE s 5 = true
    · simp [h5]
    · by_cases h2 : jsGE s 2 = true
      · simp [h5, h2]
      · simp [h5, h2]
  · intro s t h
    rw [h]

/-- Witness for C7 at `some 7` and `none`. -/
theorem C7_classifier_total_deterministic_witness :
    (getPriorityColor (some 7) = "red" ∨ getPriorityColor (some 7) = "orange" ∨
      getPriorityColor (some 7) = "green") ∧
    getPriorityColor none = getPriorityColor none :=
  ⟨C7_classifier_total_deterministic.1 (some 7),
   C7_classifier_total_deterministic.2 none none rfl⟩

/-- C2: for a feature whose properties object is present (so that its
`prioridade_score` is a number or absent), `stylePoints` returns exactly
the fixed record with `fillColor` the classifier applied to
`priorityScore ?? 0`; an absent score yields `fillColor` "green". -/
theorem C2_stylePoints_record (f : Feature) (props : Props)
    (h : f.properties = some props) :
    stylePoints f = Except.ok
      { radius := 8
        fillColor := getPriorityColor (some (props.prioridade_score.getD 0))
        color := "#000"
        weight := 1
        opacity := 1
        fillOpacity := 0.8 } ∧
    (props.prioridade_score = none →
      getPriorityColor (some (props.prioridade_score.getD 0)) = "green") := by
  have hnum : jsOrNum props.prioridade_score 0 = props.prioridade_score.getD 0 := by
    cases hp : props.prioridade_score with
    | none => rfl
    | some q =>
      by_cases hq : q = 0 <;> simp [jsOrNum, hq]
  constructor
  · simp [stylePoints, h, hnum]
  · intro hnone
    rw [hnone]
    decide

/-- Witness for C2: the fixture feature with an empty properties object is
styled green. -/
theorem C2_stylePoints_record_witness :
    stylePoints featEmpty = Except.ok
      { radius := 8, fillColor := "green", color := "#000", weight := 1,
        opacity := 1, fillOpacity := 0.8 } :=
  (C2_stylePoints_record featEmpty emptyProps rfl).1

/-- C5: for a feature whose properties object is present but empty, the
popup contains "N/A" for each of the five text fields and "0" for the
priority score. -/
theorem C5_popup_all_absent (parse : String → Option Int) (fmt : Int → String) :
    strContains "<b>Tipo:</b> N/A<br>" (buildPopup parse fmt emptyProps) = true ∧
    strContains "<b>Descrição:</b> N/A<br>" (buildPopup parse fmt emptyProps) = true ∧
    strContains "<b>Intensidade:</b> N/A<br>" (buildPopup parse fmt emptyProps) = true ∧
    strContains "<b>Origem:</b> N/A<br>" (buildPopup parse fmt emptyProps) = true ∧
    strContains "<b>Status:</b> N/A<br>" (buildPopup parse fmt emptyProps) = true ∧
    strContains "<b>Prioridade:</b> 0<br>" (buildPopup parse fmt emptyProps) = true := by
  refine ⟨?_, ?_, ?_, ?_, ?_, ?_⟩ <;> rfl

/-- Witness for C5 at the concrete environment functions. -/
theorem C5_popup_all_absent_witness :
    strContains "<b>Tipo:</b> N/A<br>" (buildPopup parse0 fmt0 emptyProps) = true ∧
    strContains "<b>Descrição:</b> N/A<br>" (buildPopup parse0 fmt0 emptyProps) = true ∧
    strContains "<b>Intensidade:</b> N/A<br>" (buildPopup parse0 fmt0 emptyProps) = true ∧
    strContains "<b>Origem:</b> N/A<br>" (buildPopup parse0 fmt0 emptyProps) = true ∧
    strContains "<b>Status:</b> N/A<br>" (buildPopup parse0 fmt0 emptyProps) = true ∧
    strContains "<b>Prioridade:</b> 0<br>" (buildPopup parse0 fmt0 emptyProps) = true :=
  C5_popup_all_absent parse0 fmt0

/-- C6 counterexample: a properties object whose photo URL is present but
empty (falsy in JS) gets no image reference, refuting "if and only if the
photo URL property is present". -/
theorem C6_counterexample :
    propsEmptyFoto.foto_url = some "" ∧
    strContains "<img" (buildPopup parse0 fmt0 propsEmptyFoto) = false :=
  ⟨rfl, rfl⟩

/-- C6 (amended): the popup content carries an image reference iff the photo
URL property is present with a truthy (non-empty) value; otherwise nothing
is appended and the popup is exactly the base template. -/
theorem C6_image_iff_truthy (parse : String → Option Int) (fmt : Int → String)
    (props : Props) :
    (∀ u, props.foto_url = some u → u ≠ "" →
      buildPopup parse fmt props = popupBase parse fmt props ++ imgTag u ∧
      strContains "<img" (buildPopup parse fmt props) = true) ∧
    (props.foto_url = none ∨ props.foto_url = some "" →
      buildPopup parse fmt props = popupBase parse fmt props) := by
  constructor
  · intro u hu hne
    have hb : buildPopup parse fmt props = popupBase parse fmt props ++ imgTag u := by
      simp [buildPopup, hu, hne]
    refine ⟨hb, ?_⟩
    rw [hb]
    show hasSubstr ("<img").data (popupBase parse fmt props ++ imgTag u).data = true
    rw [String.data_append]
    apply hasSubstr_append_left
    show hasSubstr ("<img").data (imgTag u).data = true
    unfold imgTag
    rw [String.data_append]
    exact hasSubstr_of_matchHead (matchHead_append _ _)
  · rintro (h | h) <;> simp [buildPopup, h]

/-- Witness for C6 (amended) at a concrete non-empty photo URL. -/
theorem C6_image_iff_truthy_witness :
    buildPopup parse0 fmt0 propsWithFoto =
      popupBase parse0 fmt0 propsWithFoto ++ imgTag "http://example.com/p.jpg" ∧
    strContains "<img" (buildPopup parse0 fmt0 propsWithFoto) = true :=
  (C6_image_iff_truthy parse0 fmt0 propsWithFoto).1 "http://example.com/p.jpg" rfl
    (by decide)

/-- C10: when the submission timestamp is absent or not parseable, the popup
shows the rendering of an invalid date ("Invalid Date") in the "Reportado
em" line, not "N/A". -/
theorem C10_invalid_date (parse : String → Option Int) (fmt : Int → String)
    (props : Props)
    (h : props.data_submissao = none ∨
      ∃ s, props.data_submissao = some s ∧ parse s = none) :
    jsNewDateToLocaleString parse fmt props.data_submissao = "Invalid Date" ∧
    jsNewDateToLocaleString parse fmt props.data_submissao ≠ "N/A" ∧
    strContains "<b>Reportado em:</b> Invalid Date<br>" (buildPopup parse fmt props)
      = true := by
  have hdate : jsNewDateToLocaleString parse fmt props.data_submissao = "Invalid Date" := by
    rcases h with h | ⟨s, hs, hp⟩
    · simp [jsNewDateToLocaleString, h]
    · simp [jsNewDateToLocaleString, hs, hp]
  refine ⟨hdate, by rw [hdate]; decide, ?_⟩
  have hbase :
      hasSubstr ("<b>Reportado em:</b> Invalid Date<br>").data
        (popupBase parse fmt props).data = true := by
    simp only [popupBase, hdate, String.data_append]
    apply hasSubstr_append_left
    apply hasSubstr_append_left
    apply hasSubstr_append_left
    apply hasSubstr_append_left
    apply hasSubstr_append_left
    apply hasSubstr_append_left
    apply hasSubstr_append_left
    apply hasSubstr_append_left
    apply hasSubstr_append_left
    apply hasSubstr_append_left
    apply hasSubstr_append_left
    apply hasSubstr_append_left
    apply hasSubstr_append_left
    decide
  show hasSubstr ("<b>Reportado em:</b> Invalid Date<br>").data
    (buildPopup parse fmt props).data = true
  rcases hf : props.foto_url with _ | u
  · simpa [buildPopup, hf] using hbase
  · by_cases hu : u = ""
    · simpa [buildPopup, hf, hu] using hbase
    · simp only [buildPopup, hf, hu, if_neg hu, String.data_append]
      exact hasSubstr_append_right _ hbase

/-- Witness for C10 at a concrete unparseable timestamp. -/
theorem C10_invalid_date_witness :
    jsNewDateToLocaleString parse0 fmt0 propsBadDate.data_submissao = "Invalid Date" ∧
    jsNewDateToLocaleString parse0 fmt0 propsBadDate.data_submissao ≠ "N/A" ∧
    strContains "<b>Reportado em:</b> Invalid Date<br>"
      (buildPopup parse0 fmt0 propsBadDate) = true :=
  C10_invalid_date parse0 fmt0 propsBadDate (Or.inr ⟨"not-a-date", rfl, rfl⟩)

/-- C9: `stylePoints` is only well-defined under the precondition that the
feature has a properties object — then the error branch is unreachable and
a style record is returned — while `onEachFeature` guards the same case and
binds no popup to a feature without a properties object. -/
theorem C9_properties_guard (parse : String → Option Int) (fmt : Int → String)
    (f : Feature) :
    (∀ props, f.properties = some props → ∃ sty, stylePoints f = Except.ok sty) ∧
    (f.properties = none →
      (∃ e, stylePoints f = Except.error e) ∧ onEachFeature parse fmt f = none) := by
  constructor
  · intro props h
    exact ⟨{ radius := 8
             fillColor := getPriorityColor (some (jsOrNum props.prioridade_score 0))
             color := "#000", weight := 1, opacity := 1, fillOpacity := 0.8 },
           by simp [stylePoints, h]⟩
  · intro h
    exact ⟨⟨⟨"TypeError: Cannot read properties of undefined"⟩,
            by simp [stylePoints, h]⟩,
           by simp [onEachFeature, h]⟩

/-- Witness for C9 on the two fixture features. -/
theorem C9_properties_guard_witness :
    (∃ sty, stylePoints featEmpty = Except.ok sty) ∧
    (∃ e, stylePoints featBare = Except.error e) ∧
    onEachFeature parse0 fmt0 featBare = none :=
  ⟨(C9_properties_guard parse0 fmt0 featEmpty).1 emptyProps rfl,
   ((C9_properties_guard parse0 fmt0 featBare).2 rfl).1,
   ((C9_properties_guard parse0 fmt0 featBare).2 rfl).2⟩

/-- C3: a non-ok HTTP response makes the chain throw an error carrying the
status code; the catch handler logs it, shows exactly one alert, and adds
no markers. -/
theorem C3_http_failure (parse : String → Option Int) (fmt : Int → String)
    (st : MapState) (status : Nat) (body : BodyParse) :
    (runFetchChain parse fmt st (.responded false status body)).markerLayers
      = st.markerLayers ∧
    (runFetchChain parse fmt st (.responded false status body)).alerts
      = st.alerts ++ [alertText] ∧
    (runFetchChain parse fmt st (.responded false status body)).consoleErrors
      = st.consoleErrors ++
        ["Erro ao carregar dados WFS: " ++ (httpError status).message] ∧
    strContains (toString status) (httpError status).message = true := by
  refine ⟨rfl, rfl, rfl, ?_⟩
  show strContains (toString status) ("Erro HTTP! Status: " ++ toString status) = true
  exact strContains_append_self _ _

/-- Witness for C3 at a concrete HTTP 500 response. -/
theorem C3_http_failure_witness :
    (runFetchChain parse0 fmt0 initState (.responded false 500 .malformed)).markerLayers
      = initState.markerLayers ∧
    (runFetchChain parse0 fmt0 initState (.responded false 500 .malformed)).alerts
      = initState.alerts ++ [alertText] ∧
    (runFetchChain parse0 fmt0 initState (.responded false 500 .malformed)).consoleErrors
      = initState.consoleErrors ++
        ["Erro ao carregar dados WFS: " ++ (httpError 500).message] ∧
    strContains (toString 500) (httpError 500).message = true :=
  C3_http_failure parse0 fmt0 initState 500 .malformed

/-- C4: the marker layer changes only when the fetch responded ok, the body
parsed, and every marker was built; and then it changes by appending the
complete layer in one step.  Conversely, full success appends exactly that
layer. -/
theorem C4_render_all_or_nothing (parse : String → Option Int) (fmt : Int → String)
    (st : MapState) (outcome : FetchOutcome) :
    ((runFetchChain parse fmt st outcome).markerLayers ≠ st.markerLayers →
      ∃ status data ms, outcome = .responded true status (.ok data) ∧
        renderMarkers parse fmt data = Except.ok ms ∧
        (runFetchChain parse fmt st outcome).markerLayers = st.markerLayers ++ [ms]) ∧
    (∀ status data ms, outcome = .responded true status (.ok data) →
      renderMarkers parse fmt data = Except.ok ms →
      (runFetchChain parse fmt st outcome).markerLayers = st.markerLayers ++ [ms]) := by
  cases outcome with
  | networkFailure =>
    exact ⟨fun hne => absurd rfl hne, fun s d m heq => FetchOutcome.noConfusion heq⟩
  | responded okFlag status body =>
    cases okFlag with
    | false =>
      refine ⟨fun hne => absurd rfl hne, fun s d m heq => ?_⟩
      cases heq
    | true =>
      cases body with
      | malformed =>
        refine ⟨fun hne => absurd rfl hne, fun s d m heq => ?_⟩
        cases heq
      | ok data =>
        cases hrm : renderMarkers parse fmt data with
        | error e =>
          refine ⟨fun hne => ?_, fun s d m heq hok => ?_⟩
          · refine absurd ?_ hne
            simp [runFetchChain, hrm, handleCatch]
          · cases heq
            rw [hrm] at hok
            exact Except.noConfusion hok
        | ok ms =>
          refine ⟨fun _ => ⟨status, data, ms, rfl, hrm, ?_⟩, fun s d m heq hok => ?_⟩
          · simp [runFetchChain, hrm]
          · cases heq
            rw [hrm] at hok
            cases hok
            simp [runFetchChain, hrm]

/-- Witness for C4 at a concrete successful outcome with one feature. -/
theorem C4_render_all_or_nothing_witness :
    (runFetchChain parse0 fmt0 initState
        (.responded true 200 (.ok [featEmpty]))).markerLayers
      = initState.markerLayers ++
        [[{ latlng := (0, 0)
            style := { radius := 8, fillColor := "green", color := "#000",
                       weight := 1, opacity := 1, fillOpacity := 0.8 }
            popup := some (buildPopup parse0 fmt0 emptyProps) }]] :=
  (C4_render_all_or_nothing parse0 fmt0 initState
      (.responded true 200 (.ok [featEmpty]))).2 200 [featEmpty] _ rfl rfl

/-- C8: the configuration record is never mutated: every modeled operation
preserves the `cfg` component, the whole run ends with the startup
configuration, and its six fields are the literals of `config.js`. -/
theorem C8_config_immutable (parse : String → Option Int) (fmt : Int → String)
    (outcome : FetchOutcome) (st : MapState) (e : JSError) :
    (runMain parse fmt outcome).cfg = config ∧
    (initMap st).cfg = st.cfg ∧
    (addTileLayer st).cfg = st.cfg ∧
    (handleCatch st e).cfg = st.cfg ∧
    (runFetchChain parse fmt st outcome).cfg = st.cfg ∧
    config.osmTileUrl = "https://{s}.tile.openstreetmap.org/{z}/{x}/{y}.png" ∧
    config.osmAttribution =
      "&copy; <a href=\"https://www.openstreetmap.org/copyright\">OpenStreetMap</a> contributors" ∧
    config.wfsServiceUrl =
      "http://localhost:8080/qgis/qgis_server.fcgi?MAP=/path/to/your/qgis_project.qgz&SERVICE=WFS&VERSION=1.0.0&REQUEST=GetFeature&TYPENAME=vazamentos_denuncias&OUTPUTFORMAT=application/json" ∧
    config.centerLat = -23.5505 ∧
    config.centerLon = -46.6333 ∧
    config.defaultZoom = 12 := by
  have hrfc : ∀ s : MapState, (runFetchChain parse fmt s outcome).cfg = s.cfg := by
    intro s
    cases outcome with
    | networkFailure => rfl
    | responded okFlag status body =>
      cases okFlag with
      | false => rfl
      | true =>
        cases body with
        | malformed => rfl
        | ok data =>
          cases hrm : renderMarkers parse fmt data <;>
            simp [runFetchChain, hrm, handleCatch]
  refine ⟨?_, rfl, rfl, rfl, hrfc st, rfl, rfl, rfl, rfl, rfl, rfl⟩
  show (runFetchChain parse fmt (addTileLayer (initMap initState)) outcome).cfg = config
  rw [hrfc]
  rfl

/-- Witness for C8 at a concrete outcome and state. -/
theorem C8_config_immutable_witness :
    (runMain parse0 fmt0 .networkFailure).cfg = config ∧
    (initMap initState).cfg = initState.cfg ∧
    (addTileLayer initState).cfg = initState.cfg ∧
    (handleCatch initState ⟨"e"⟩).cfg = initState.cfg ∧
    (runFetchChain parse0 fmt0 initState .networkFailure).cfg = initState.cfg ∧
    config.osmTileUrl = "https://{s}.tile.openstreetmap.org/{z}/{x}/{y}.png" ∧
    config.osmAttribution =
      "&copy; <a href=\"https://www.openstreetmap.org/copyright\">OpenStreetMap</a> contributors" ∧
    config.wfsServiceUrl =
      "http://localhost:8080/qgis/qgis_server.fcgi?MAP=/path/to/your/qgis_project.qgz&SERVICE=WFS&VERSION=1.0.0&REQUEST=GetFeature&TYPENAME=vazamentos_denuncias&OUTPUTFORMAT=application/json" ∧
    config.centerLat = -23.5505 ∧
    config.centerLon = -46.6333 ∧
    config.defaultZoom = 12 :=
  C8_config_immutable parse0 fmt0 .networkFailure initState ⟨"e"⟩
